import Mathlib

/-!
# Verification of the RAG document-QA pipeline (src/main.py)

A shallow embedding of the Streamlit RAG application in `src/main.py`.
Side effects (UI reports, embedding computation, disk writes, network
calls, language-model invocations) are made explicit as an `Action`
trace returned alongside each function's result, and the Streamlit
session state is threaded explicitly.  External collaborators (the PDF
loader, the embedding/LLM providers, the Pinecone control plane) enter
as explicit parameters or environments.
-/

namespace RagPi

/-- A loaded document: source name plus full text content
(text as a character list so chunk-length arithmetic is exact). -/
structure Document where
  source : String
  text : List Char
  deriving DecidableEq, Repr

/-- A chunk produced by the splitter: a text span together with the
source metadata inherited from its Document. -/
structure Chunk where
  source : String
  text : List Char
  deriving DecidableEq, Repr

/-- A retriever bound to one populated store (its entries) and a fixed
result-count parameter `k` (src/main.py lines 110 and 185). -/
structure Retriever where
  entries : List Chunk
  k : Nat
  deriving DecidableEq, Repr

/-- Observable side effects of the pipeline, recorded in program order:
UI reports (`st.error` / `st.warning` / `st.success` / `st.info`),
embedding computation, local disk writes, Pinecone network calls, and
language-model invocations (which record the chat history they are
handed). -/
inductive Action where
  | reportError (msg : String)
  | reportWarning (msg : String)
  | reportSuccess (msg : String)
  | reportInfo (msg : String)
  | stageFile (content : String)
  | deleteTmpFiles
  | embedChunks (n : Nat)
  | diskWrite
  | netCreateIndex (dimension : Nat)
  | netDescribeIndex
  | netWriteEntries (n : Nat)
  | llmInvoke (query : String) (chatHistory : List (String × String))
  deriving DecidableEq, Repr

/-- Actions that do embedding work, disk writes, network calls or
language-model calls — everything beyond pure UI reporting. -/
def Action.isCostly : Action → Bool
  | .embedChunks _ => true
  | .diskWrite => true
  | .netCreateIndex _ => true
  | .netDescribeIndex => true
  | .netWriteEntries _ => true
  | .llmInvoke _ _ => true
  | _ => false

/-- Python exceptions that can flow to an `except` handler in the code:
the Pinecone API rejecting creation of an index that already exists,
the `NameError` from the unbound name `time` (its import on line 145 of
src/main.py is commented out), and a failure of the language-model call. -/
inductive PyError where
  | indexAlreadyExists
  | nameErrorTime
  | llmFailure (msg : String)
  deriving DecidableEq, Repr

/-- The `str(e)` rendering used by the `except` handlers. -/
def pyErrorMessage : PyError → String
  | .indexAlreadyExists => "index already exists"
  | .nameErrorTime => "name 'time' is not defined"
  | .llmFailure m => m

/-- The configured chunk size: `CharacterTextSplitter(chunk_size=1000, ...)`
(src/main.py line 76). -/
def chunkSize : Nat := 1000

/-- Modelled from the spec: the chunking recursion of the external
`CharacterTextSplitter` library (imported on src/main.py line 18, not
part of this repository).  Spec §4.1: each Document's text is split
into consecutive spans of at most `maxSize` characters with
`overlap = 0` (no repetition), and a Document shorter than `maxSize`
yields exactly one chunk identical to the source text.  `fuel` is a
structural-termination device only: each recursive step removes
`maxSize ≥ 1` characters, so `fuel = text.length` (as supplied by
`splitText`) always suffices, and the `fuel = 0` fallback is reached
only on an already-empty text. -/
def splitTextFuel (maxSize : Nat) : Nat → List Char → List (List Char)
  | 0, text => [text]
  | fuel + 1, text =>
    if maxSize = 0 ∨ text.length ≤ maxSize then [text]
    else text.take maxSize :: splitTextFuel maxSize fuel (text.drop maxSize)

/-- Modelled from the spec: split a text into consecutive spans of at
most `maxSize` characters (spec §4.1), via `splitTextFuel` with
sufficient fuel. -/
def splitText (maxSize : Nat) (text : List Char) : List (List Char) :=
  splitTextFuel maxSize text.length text

/-- Modelled from the spec: per-document splitting — the chunks of one
Document, in sequential order, each inheriting the Document's source
metadata (spec §4.1). -/
def splitDocument (d : Document) : List Chunk :=
  (splitText chunkSize d.text).map (fun t => { source := d.source, text := t })

/-- Embeds `split_documents` (src/main.py lines 63–84): reports and returns `[]`
on empty input, otherwise splits every document and reports the chunk
count (or a splitting failure when no chunks were produced). -/
def split_documents (documents : List Document) : List Chunk × List Action :=
  if documents = [] then
    ([], [Action.reportError "No documents found to split."])
  else
    let texts := (documents.map splitDocument).flatten
    if texts = [] then
      (texts, [Action.reportError "Splitting failed. No text chunks created."])
    else
      (texts, [Action.reportSuccess ("Created " ++ toString texts.length ++ " text chunks.")])

/-- Embeds `embeddings_on_local_vectordb` (src/main.py lines 86–120): rejects an
empty chunk list with an error and `None` before any embedding work;
otherwise `Chroma.from_documents` embeds every chunk, the store is
persisted to disk, and a retriever with `k = 7` is returned.  The external
embedding provider and the local Chroma backend are modelled as
succeeding; only their occurrence is recorded in the trace. -/
def embeddings_on_local_vectordb (texts : List Chunk) : Option Retriever × List Action :=
  if texts = [] then
    (none, [Action.reportError "No text chunks were created. Check document splitting."])
  else
    (some { entries := texts, k := 7 },
     [Action.embedChunks texts.length, Action.diskWrite,
      Action.reportSuccess "Retriever successfully created!"])

/-- The state of the external Pinecone control plane relevant to
`embeddings_on_pinecone`: whether the named index already exists and,
if so, the dimension it was configured with. -/
structure CloudEnv where
  indexExists : Bool
  indexDimension : Nat
  deriving DecidableEq, Repr

/-- The body of the `try` block of `embeddings_on_pinecone`
(src/main.py lines 131–192), embedded statement by statement.  An
uncaught exception is returned as `.error` together with the actions
already performed.  Two facts of the source decide the control flow:

* `pc.create_index(...)` (line 157) is issued unconditionally — the
  existence check on lines 139–147 is commented out — and the Pinecone
  API rejects creating an index whose name already exists;
* `time.sleep(5)` (line 165) raises `NameError` because the module never
  imports `time` (the import on line 145 is commented out), so the
  statements from `describe_index` (line 168) onwards are unreachable;
  they are embedded all the same. -/
def embeddings_on_pinecone_body (env : CloudEnv) (texts : List Chunk) :
    Except (PyError × List Action) (Option Retriever × List Action) :=
  if texts = [] then
    .ok (none, [Action.reportError "No text chunks received for Pinecone vectorization."])
  else
    let a1 : List Action :=
      [Action.reportInfo "Creating new index with correct dimensions...",
       Action.netCreateIndex 1536]
    match (if env.indexExists then Except.error PyError.indexAlreadyExists
           else Except.ok { indexExists := true, indexDimension := 1536 } :
           Except PyError CloudEnv) with
    | .error e => .error (e, a1)
    | .ok env1 =>
      match (Except.error PyError.nameErrorTime : Except PyError Unit) with
      | .error e => .error (e, a1)
      | .ok _ =>
        let a2 := a1 ++ [Action.netDescribeIndex]
        if env1.indexDimension ≠ 1536 then
          .ok (none, a2 ++ [Action.reportError
            ("Index dimension mismatch. Expected 1536 but got " ++
             toString env1.indexDimension)])
        else
          .ok (some { entries := texts, k := 2 },
               a2 ++ [Action.embedChunks texts.length,
                      Action.netWriteEntries texts.length,
                      Action.reportSuccess "Pinecone retriever successfully created!"])

/-- Embeds `embeddings_on_pinecone` (src/main.py lines 122–200): the `try` body
above with its `except` handler, which reports `str(e)` and returns
`None`. -/
def embeddings_on_pinecone (env : CloudEnv) (texts : List Chunk) :
    Option Retriever × List Action :=
  match embeddings_on_pinecone_body env texts with
  | .ok r => r
  | .error (e, acts) =>
      (none, acts ++ [Action.reportError
        ("Error creating Pinecone vector store: " ++ pyErrorMessage e)])

/-- The external language-model capability behind
`ConversationalRetrievalChain` (src/main.py lines 221–231): given the
question and the chat history it is handed, it either produces an answer
or fails. -/
abbrev LLM := String → List (String × String) → Except PyError String

/-- Embeds `query_llm` (src/main.py lines 202–240): inside a `try`, a `None`
retriever is rejected with an error report and an error string before the
chain — and hence the language model — is ever constructed or invoked;
otherwise the chain is invoked with the question and the full
`st.session_state.messages` history.  On success `(query, answer)` is
appended to the history; any exception is caught, reported, and converted
into a fixed error string with the history untouched.  Returns
`(result string, updated messages, trace)`. -/
def query_llm (llm : LLM) (messages : List (String × String))
    (retriever : Option Retriever) (query : String) :
    String × List (String × String) × List Action :=
  match retriever with
  | none =>
      ("Error: The retriever is not initialized.", messages,
       [Action.reportError
         "Error: The retriever is None. Ensure documents are processed correctly."])
  | some _ =>
      match llm query messages with
      | .ok answer =>
          (answer, messages ++ [(query, answer)], [Action.llmInvoke query messages])
      | .error e =>
          ("I encountered an error processing your question. Please try again.",
           messages,
           [Action.llmInvoke query messages,
            Action.reportError ("Error processing query: " ++ pyErrorMessage e)])

/-- The Streamlit session state threaded through the application
(src/main.py lines 246–296, 383–384).  The `retriever` field is
`Option (Option Retriever)`: the outer `none` means the key `"retriever"`
is absent from `st.session_state` (never yet assigned), while
`some r` means the key is present holding `r` — which is itself
`none` when line 364 stored a Python `None`. -/
structure SessionState where
  openai_api_key : String
  pinecone_api_key : String
  pinecone_env : String
  pinecone_index : String
  pinecone_db : Bool
  source_docs : List String
  retriever : Option (Option Retriever)
  messages : List (String × String)
  deriving DecidableEq, Repr

/-- Embeds `load_documents` (src/main.py lines 39–61): errors when the staged
directory is empty, then hands the directory to the external
`DirectoryLoader`/PDF parser, whose output is the `loaded` parameter;
an empty load is reported, a non-empty one announced. -/
def load_documents (tmpFiles : List String) (loaded : List Document) :
    List Document × List Action :=
  if tmpFiles = [] then
    ([], [Action.reportError "No documents found in the temporary directory."])
  else if loaded = [] then
    (loaded, [Action.reportError "Documents could not be loaded. Check file formats or permissions"])
  else
    (loaded, [Action.reportSuccess ("Loaded " ++ toString loaded.length ++ " documents scucessfully")])

/-- The tail of `process_documents` from the vector-store comment onwards
(src/main.py lines 342–364), as a function of the chunk list `texts`
returned by `split_documents`: report on the chunk count (an empty list
is reported as an error but, the `return` being absent, execution
continues), build the vector store on the backend selected by the
`pinecone_db` toggle, report overall success, and store the resulting
retriever — whatever it is — under the session-state key `"retriever"`. -/
def process_documents_from_texts (env : CloudEnv) (state : SessionState)
    (texts : List Chunk) : SessionState × List Action :=
  let splitReport :=
    if texts = [] then
      [Action.reportError "Text splitting failed. No text chunks generated."]
    else
      [Action.reportSuccess ("Generated " ++ toString texts.length ++ " text chunks.")]
  let built :=
    if state.pinecone_db = false then embeddings_on_local_vectordb texts
    else embeddings_on_pinecone env texts
  ({ state with retriever := some built.1 },
   splitReport ++ built.2 ++ [Action.reportSuccess "Documents processed successfully!"])

/-- Embeds `process_documents` (src/main.py lines 298–376): validate the
credentials and the upload, stage the uploaded files, load them through
the external loader (its output is `loaded`), return early when loading
produced nothing, delete the staged files, split, and continue with
`process_documents_from_texts`. -/
def process_documents (env : CloudEnv) (state : SessionState)
    (loaded : List Document) : SessionState × List Action :=
  if state.openai_api_key = "" then
    (state, [Action.reportWarning "Please enter your OpenAI API key."])
  else if state.pinecone_db = true ∧
      (state.pinecone_api_key = "" ∨ state.pinecone_env = "" ∨
       state.pinecone_index = "") then
    (state, [Action.reportWarning "Please provide all Pinecone credentials."])
  else if state.source_docs = [] then
    (state, [Action.reportWarning "Please upload at least one document."])
  else
    let stageActs := state.source_docs.map Action.stageFile
    let load := load_documents state.source_docs loaded
    if load.1 = [] then
      (state, stageActs ++ load.2 ++ [Action.reportError "Document loading failed."])
    else
      let split := split_documents load.1
      let rest := process_documents_from_texts env state split.1
      (rest.1, stageActs ++ load.2 ++ [Action.deleteTmpFiles] ++ split.2 ++ rest.2)

/-- The chat-input branch of `main` (src/main.py lines 398–409): a query
is refused with a warning when the key `"retriever"` is not in the
session state; otherwise `query_llm` runs on the stored retriever value.
Returns `(response, updated state, trace)`, the response being `none`
exactly when the guard refused the query. -/
def main_on_query (llm : LLM) (state : SessionState) (query : String) :
    Option String × SessionState × List Action :=
  match state.retriever with
  | none => (none, state, [Action.reportWarning "Please process documents first."])
  | some r =>
      let q := query_llm llm state.messages r query
      (some q.1, { state with messages := q.2.1 }, q.2.2)

/-- A concrete session state configured for the local backend, used to
evaluate the pipeline at specific inputs. -/
def localState : SessionState :=
  { openai_api_key := "sk-key", pinecone_api_key := "", pinecone_env := "",
    pinecone_index := "", pinecone_db := false, source_docs := ["pdf-bytes"],
    retriever := none, messages := [] }

/-- A concrete session state configured for the Pinecone backend with all
credentials present, used to evaluate the pipeline at specific inputs. -/
def cloudState : SessionState :=
  { openai_api_key := "sk-key", pinecone_api_key := "pc-key",
    pinecone_env := "us-east-1", pinecone_index := "docs-index",
    pinecone_db := true, source_docs := ["pdf-bytes"],
    retriever := none, messages := [] }

/-- A concrete two-character document. -/
def tinyDoc : Document := { source := "a.pdf", text := ['h', 'i'] }

/-- A concrete single chunk. -/
def tinyChunk : Chunk := { source := "a.pdf", text := ['h', 'i'] }

/-- A language-model capability that always answers `"ans"`. -/
def okLLM : LLM := fun _ _ => Except.ok "ans"

/-- A language-model capability that always fails. -/
def failLLM : LLM := fun _ _ => Except.error (PyError.llmFailure "rate limit")

/-! ## Splitter lemmas -/

theorem splitTextFuel_ne_nil (m fuel : Nat) (text : List Char) :
    splitTextFuel m fuel text ≠ [] := by
  cases fuel with
  | zero => simp [splitTextFuel]
  | succ n =>
      rw [splitTextFuel]
      split <;> simp

theorem splitText_ne_nil (m : Nat) (text : List Char) : splitText m text ≠ [] :=
  splitTextFuel_ne_nil m text.length text

theorem splitTextFuel_length_le (m : Nat) (hm : 0 < m) (fuel : Nat) :
    ∀ text : List Char, text.length ≤ fuel →
      ∀ s ∈ splitTextFuel m fuel text, s.length ≤ m := by
  induction fuel with
  | zero =>
      intro text hlen s hs
      have htext : text = [] := List.length_eq_zero.mp (Nat.le_zero.mp hlen)
      subst htext
      simp [splitTextFuel] at hs
      simp [hs]
  | succ n ih =>
      intro text hlen s hs
      rw [splitTextFuel] at hs
      split at hs
      · rename_i hcond
        simp only [List.mem_singleton] at hs
        subst hs
        rcases hcond with hcond | hcond <;> omega
      · rename_i hcond
        push_neg at hcond
        simp only [List.mem_cons] at hs
        rcases hs with hs | hs
        · subst hs
          simp
        · exact ih (text.drop m) (by simp only [List.length_drop]; omega) s hs

theorem splitText_length_le (m : Nat) (hm : 0 < m) (text : List Char) :
    ∀ s ∈ splitText m text, s.length ≤ m :=
  splitTextFuel_length_le m hm text.length text le_rfl

theorem splitText_of_le (m : Nat) (text : List Char) (h : text.length ≤ m) :
    splitText m text = [text] := by
  unfold splitText
  cases text with
  | nil => rfl
  | cons a as =>
      rw [List.length_cons, splitTextFuel, if_pos (Or.inr (by simpa using h))]

theorem splitDocument_ne_nil (d : Document) : splitDocument d ≠ [] := by
  unfold splitDocument
  simp [splitText_ne_nil]

theorem split_documents_fst (documents : List Document) (h : documents ≠ []) :
    (split_documents documents).1 = (documents.map splitDocument).flatten := by
  simp only [split_documents, if_neg h]
  split <;> rfl

/-! ## Claims about the splitter -/

/-- C8: for every non-empty set of Documents, the splitter produces at
least one Chunk per Document, and every produced chunk's text length is
at most the configured `chunkSize` (1000). -/
theorem split_at_least_one_chunk_each_and_bounded (documents : List Document)
    (h : documents ≠ []) :
    (∀ d ∈ documents, 1 ≤ (splitDocument d).length) ∧
    ∀ c ∈ (split_documents documents).1, c.text.length ≤ chunkSize := by
  constructor
  · intro d _
    exact List.length_pos.mpr (splitDocument_ne_nil d)
  · intro c hc
    rw [split_documents_fst documents h, List.mem_flatten] at hc
    obtain ⟨l, hl, hcl⟩ := hc
    rw [List.mem_map] at hl
    obtain ⟨d, _, rfl⟩ := hl
    unfold splitDocument at hcl
    rw [List.mem_map] at hcl
    obtain ⟨t, ht, rfl⟩ := hcl
    exact splitText_length_le chunkSize (by norm_num [chunkSize]) d.text t ht

/-- Witness for C8 at the one-document list `[tinyDoc]`. -/
theorem split_at_least_one_chunk_each_and_bounded_witness :
    [tinyDoc] ≠ ([] : List Document) ∧
    ((∀ d ∈ [tinyDoc], 1 ≤ (splitDocument d).length) ∧
     ∀ c ∈ (split_documents [tinyDoc]).1, c.text.length ≤ chunkSize) :=
  ⟨by decide, split_at_least_one_chunk_each_and_bounded [tinyDoc] (by decide)⟩

/-- C9: for every Document whose text length is at most `chunkSize`
(1000), splitting yields exactly one Chunk whose text equals the
original Document text. -/
theorem split_roundtrip_short_document (d : Document)
    (h : d.text.length ≤ chunkSize) :
    splitDocument d = [{ source := d.source, text := d.text }] := by
  unfold splitDocument
  rw [splitText_of_le chunkSize d.text h]
  rfl

/-- Witness for C9 at the two-character document `tinyDoc`. -/
theorem split_roundtrip_short_document_witness :
    tinyDoc.text.length ≤ chunkSize ∧
    splitDocument tinyDoc = [{ source := tinyDoc.source, text := tinyDoc.text }] :=
  ⟨by decide, split_roundtrip_short_document tinyDoc (by decide)⟩

/-! ## Store-build lemmas -/

/-- The cloud build never returns a retriever: when the index already
exists the unconditional `create_index` raises, and when it does not the
`time.sleep(5)` on line 165 raises `NameError` (`time` is never
imported), so every run ends in the `except` handler with `None`. -/
theorem embeddings_on_pinecone_fst (env : CloudEnv) (texts : List Chunk) :
    (embeddings_on_pinecone env texts).1 = none := by
  by_cases h : texts = []
  · subst h
    rfl
  · cases henv : env.indexExists <;>
      simp [embeddings_on_pinecone, embeddings_on_pinecone_body, h, henv]

/-- The exact trace of a cloud build on non-empty input: the info
report, the unconditional index-creation request, and the generic
`except`-handler report of whichever exception fired. -/
theorem embeddings_on_pinecone_eq (env : CloudEnv) (texts : List Chunk)
    (h : texts ≠ []) :
    embeddings_on_pinecone env texts =
      (none,
       [Action.reportInfo "Creating new index with correct dimensions...",
        Action.netCreateIndex 1536,
        Action.reportError ("Error creating Pinecone vector store: " ++
          pyErrorMessage (if env.indexExists then PyError.indexAlreadyExists
                          else PyError.nameErrorTime))]) := by
  cases henv : env.indexExists <;>
    simp [embeddings_on_pinecone, embeddings_on_pinecone_body, h, henv]

/-! ## Claims about the store adapters -/

/-- C4: for both store variants (local and cloud), `build` on an empty
chunk sequence fails — reporting an error and returning `None` — before
any embedding computation, disk write, or network call is made. -/
theorem build_rejects_empty_input (env : CloudEnv) :
    embeddings_on_local_vectordb [] =
      (none, [Action.reportError "No text chunks were created. Check document splitting."]) ∧
    embeddings_on_pinecone env [] =
      (none, [Action.reportError "No text chunks received for Pinecone vectorization."]) ∧
    (∀ a ∈ (embeddings_on_local_vectordb []).2, a.isCostly = false) ∧
    (∀ a ∈ (embeddings_on_pinecone env []).2, a.isCostly = false) := by
  refine ⟨rfl, rfl, by decide, ?_⟩
  intro a ha
  have he : (embeddings_on_pinecone env []).2 =
      [Action.reportError "No text chunks received for Pinecone vectorization."] := rfl
  rw [he] at ha
  simp only [List.mem_singleton] at ha
  subst ha
  rfl

/-- C2: the claim's creation/wait/write protocol against the code.  For
every non-empty chunk sequence and every control-plane state, the cloud
build issues the index-creation request even when the index already
exists (the existence check on src/main.py lines 139–147 is commented
out), never writes a single entry, and returns `None`: after the
creation request, `time.sleep(5)` raises `NameError` because `time` is
never imported, so the build can never reach the write step. -/
theorem cloud_build_always_creates_and_never_writes (env : CloudEnv)
    (texts : List Chunk) (h : texts ≠ []) :
    (embeddings_on_pinecone env texts).1 = none ∧
    Action.netCreateIndex 1536 ∈ (embeddings_on_pinecone env texts).2 ∧
    ∀ n, Action.netWriteEntries n ∉ (embeddings_on_pinecone env texts).2 := by
  rw [embeddings_on_pinecone_eq env texts h]
  refine ⟨rfl, by simp, ?_⟩
  intro n
  simp

/-- Witness for C2: an absent index (the claim's creation path) and one
chunk. -/
theorem cloud_build_always_creates_and_never_writes_witness :
    [tinyChunk] ≠ ([] : List Chunk) ∧
    ((embeddings_on_pinecone ⟨false, 0⟩ [tinyChunk]).1 = none ∧
     Action.netCreateIndex 1536 ∈ (embeddings_on_pinecone ⟨false, 0⟩ [tinyChunk]).2 ∧
     ∀ n, Action.netWriteEntries n ∉ (embeddings_on_pinecone ⟨false, 0⟩ [tinyChunk]).2) :=
  ⟨by decide, cloud_build_always_creates_and_never_writes ⟨false, 0⟩ [tinyChunk] (by decide)⟩

/-- C5: when the named index already exists with a dimension other than
1536, the cloud build performs no entry writes and returns `None`, but
its whole trace is the generic `except`-handler failure: the
`create_index` call raises first (the index exists), the dimension check
on src/main.py lines 170–172 — which would also be blocked by the
`NameError` at line 165 — is never reached, and no dimension-mismatch
report distinguishable from a generic backend failure is ever issued. -/
theorem cloud_mismatched_dimension_generic_failure (env : CloudEnv)
    (texts : List Chunk) (hex : env.indexExists = true)
    (_hdim : env.indexDimension ≠ 1536) (h : texts ≠ []) :
    embeddings_on_pinecone env texts =
      (none,
       [Action.reportInfo "Creating new index with correct dimensions...",
        Action.netCreateIndex 1536,
        Action.reportError "Error creating Pinecone vector store: index already exists"]) := by
  rw [embeddings_on_pinecone_eq env texts h, hex]
  rfl

/-- Witness for C5: an existing index of dimension 1024 and one chunk. -/
theorem cloud_mismatched_dimension_generic_failure_witness :
    (CloudEnv.mk true 1024).indexExists = true ∧
    (CloudEnv.mk true 1024).indexDimension ≠ 1536 ∧
    [tinyChunk] ≠ ([] : List Chunk) ∧
    embeddings_on_pinecone ⟨true, 1024⟩ [tinyChunk] =
      (none,
       [Action.reportInfo "Creating new index with correct dimensions...",
        Action.netCreateIndex 1536,
        Action.reportError "Error creating Pinecone vector store: index already exists"]) :=
  ⟨rfl, by decide, by decide,
   cloud_mismatched_dimension_generic_failure ⟨true, 1024⟩ [tinyChunk] rfl (by decide) (by decide)⟩

/-! ## Claims about the QA engine -/

/-- C3: for every query, if the retriever is unset (`None`), `query_llm`
returns the retriever-not-initialized error string after reporting the
precondition failure, and the language-model capability is never
invoked — whatever the capability, the history, or the query. -/
theorem query_rejects_unset_retriever (llm : LLM)
    (messages : List (String × String)) (query : String) :
    query_llm llm messages none query =
      ("Error: The retriever is not initialized.", messages,
       [Action.reportError
         "Error: The retriever is None. Ensure documents are processed correctly."]) ∧
    ∀ q hist, Action.llmInvoke q hist ∉ (query_llm llm messages none query).2.2 := by
  refine ⟨rfl, ?_⟩
  intro q hist hmem
  simp [query_llm] at hmem

/-- C6: for every successful `query_llm` call with query `q` producing
answer `a`, the updated history is the prior history with `(q, a)`
appended at the end, and the language-model invocation records the
entire prior history as its context — every prior turn, not a window. -/
theorem query_success_appends_turn_with_full_history (llm : LLM)
    (messages : List (String × String)) (r : Retriever)
    (query answer : String) (h : llm query messages = Except.ok answer) :
    query_llm llm messages (some r) query =
      (answer, messages ++ [(query, answer)],
       [Action.llmInvoke query messages]) := by
  simp [query_llm, h]

/-- Witness for C6: `okLLM` on a one-turn history. -/
theorem query_success_appends_turn_with_full_history_witness :
    okLLM "And Y?" [("What is X?", "X is 42")] = Except.ok "ans" ∧
    query_llm okLLM [("What is X?", "X is 42")] (some { entries := [tinyChunk], k := 7 }) "And Y?" =
      ("ans", [("What is X?", "X is 42"), ("And Y?", "ans")],
       [Action.llmInvoke "And Y?" [("What is X?", "X is 42")]]) :=
  ⟨rfl, query_success_appends_turn_with_full_history okLLM
    [("What is X?", "X is 42")] { entries := [tinyChunk], k := 7 } "And Y?" "ans" rfl⟩

/-- C7: if the language-model call fails after the retriever check, the
failure is caught and converted into a reported non-fatal outcome —
`query_llm` returns the fixed apology string instead of raising — and
the chat history is left unchanged for the next attempt. -/
theorem query_failure_caught_history_unchanged (llm : LLM)
    (messages : List (String × String)) (r : Retriever) (query : String)
    (e : PyError) (h : llm query messages = Except.error e) :
    (query_llm llm messages (some r) query).1 =
      "I encountered an error processing your question. Please try again." ∧
    (query_llm llm messages (some r) query).2.1 = messages := by
  simp [query_llm, h]

/-- Witness for C7: `failLLM` on a one-turn history. -/
theorem query_failure_caught_history_unchanged_witness :
    failLLM "And Y?" [("What is X?", "X is 42")] =
      Except.error (PyError.llmFailure "rate limit") ∧
    ((query_llm failLLM [("What is X?", "X is 42")]
        (some { entries := [tinyChunk], k := 7 }) "And Y?").1 =
      "I encountered an error processing your question. Please try again." ∧
     (query_llm failLLM [("What is X?", "X is 42")]
        (some { entries := [tinyChunk], k := 7 }) "And Y?").2.1 =
      [("What is X?", "X is 42")]) :=
  ⟨rfl, query_failure_caught_history_unchanged failLLM
    [("What is X?", "X is 42")] { entries := [tinyChunk], k := 7 } "And Y?"
    (PyError.llmFailure "rate limit") rfl⟩

/-! ## Claims about the ingestion pipeline and session -/

/-- C1 counterexample: with the local backend and an empty chunk
sequence — the claim's "splitting yields an empty chunk sequence"
situation — the tail of `process_documents` does not stop at the split
step: it reports the split failure, then still runs the vector-store
step (whose own empty-input report appears in the trace), reports
"Documents processed successfully!", and stores a retriever value
(`None`) under the session key.  The claim's "stops at that step and
does not proceed to build a vector store or store a retriever" is
false at this input. -/
theorem split_failure_does_not_halt_counterexample :
    (process_documents_from_texts ⟨false, 0⟩ localState []).1.retriever = some none ∧
    Action.reportError "No text chunks were created. Check document splitting."
      ∈ (process_documents_from_texts ⟨false, 0⟩ localState []).2 ∧
    Action.reportSuccess "Documents processed successfully!"
      ∈ (process_documents_from_texts ⟨false, 0⟩ localState []).2 := by
  refine ⟨rfl, ?_, ?_⟩ <;> decide

/-- C1 amended: a failure at the split step does not halt the pipeline —
execution continues into the vector-store step — but no partial
retriever is ever produced from it: on an empty chunk sequence both
backends reject the input before any embedding, disk or network work,
and the value stored under the session retriever key is `None`. -/
theorem empty_split_no_partial_retriever (env : CloudEnv)
    (state : SessionState) (texts : List Chunk) (h : texts = []) :
    (process_documents_from_texts env state texts).1.retriever = some none ∧
    ∀ a ∈ (process_documents_from_texts env state texts).2, a.isCostly = false := by
  subst h
  cases hdb : state.pinecone_db with
  | false =>
      refine ⟨by simp [process_documents_from_texts, hdb, embeddings_on_local_vectordb], ?_⟩
      intro a ha
      simp [process_documents_from_texts, hdb, embeddings_on_local_vectordb] at ha
      rcases ha with ha | ha | ha <;> subst ha <;> rfl
  | true =>
      have he : embeddings_on_pinecone env [] =
          (none, [Action.reportError "No text chunks received for Pinecone vectorization."]) := rfl
      refine ⟨by simp [process_documents_from_texts, hdb, he], ?_⟩
      intro a ha
      simp [process_documents_from_texts, hdb, he] at ha
      rcases ha with ha | ha | ha <;> subst ha <;> rfl

/-- Witness for the amended C1 at the cloud backend and the empty chunk
list. -/
theorem empty_split_no_partial_retriever_witness :
    ([] : List Chunk) = [] ∧
    ((process_documents_from_texts ⟨false, 0⟩ cloudState []).1.retriever = some none ∧
     ∀ a ∈ (process_documents_from_texts ⟨false, 0⟩ cloudState []).2, a.isCostly = false) :=
  ⟨rfl, empty_split_no_partial_retriever ⟨false, 0⟩ cloudState [] rfl⟩

/-- C10: any `process_documents` run that passes input validation on the
Pinecone backend and reaches the vector-store step sets the session key
`"retriever"` — to `None`, since the cloud build always fails — so a
later query passes the `"retriever" not in st.session_state` guard in
`main` and is instead rejected inside `query_llm` with the
retriever-not-initialized error, never reaching the language model. -/
theorem failed_build_still_sets_retriever_key (env : CloudEnv)
    (state : SessionState) (loaded : List Document) (llm : LLM) (query : String)
    (h1 : state.openai_api_key ≠ "") (h2 : state.pinecone_api_key ≠ "")
    (h3 : state.pinecone_env ≠ "") (h4 : state.pinecone_index ≠ "")
    (h5 : state.pinecone_db = true) (h6 : state.source_docs ≠ [])
    (h7 : loaded ≠ []) :
    (process_documents env state loaded).1.retriever = some none ∧
    (main_on_query llm (process_documents env state loaded).1 query).1 =
      some "Error: The retriever is not initialized." ∧
    ∀ q hist, Action.llmInvoke q hist ∉
      (main_on_query llm (process_documents env state loaded).1 query).2.2 := by
  have hkey : (process_documents env state loaded).1.retriever = some none := by
    simp only [process_documents, load_documents, if_neg h1, if_neg h6, if_neg h7]
    rw [if_neg (by simp [h2, h3, h4])]
    simp only [if_neg h6, if_neg h7, if_neg h7]
    simp only [process_documents_from_texts, h5]
    simp [embeddings_on_pinecone_fst]
  refine ⟨hkey, ?_, ?_⟩
  · simp [main_on_query, hkey, query_llm]
  · intro q hist hmem
    simp [main_on_query, hkey, query_llm] at hmem

/-- Witness for C10 at a fully credentialed cloud session, an absent
index, one uploaded file and one loaded document. -/
theorem failed_build_still_sets_retriever_key_witness :
    cloudState.openai_api_key ≠ "" ∧
    cloudState.pinecone_api_key ≠ "" ∧
    cloudState.pinecone_env ≠ "" ∧
    cloudState.pinecone_index ≠ "" ∧
    cloudState.pinecone_db = true ∧
    cloudState.source_docs ≠ [] ∧
    [tinyDoc] ≠ ([] : List Document) ∧
    ((process_documents ⟨false, 0⟩ cloudState [tinyDoc]).1.retriever = some none ∧
     (main_on_query okLLM (process_documents ⟨false, 0⟩ cloudState [tinyDoc]).1 "And Y?").1 =
       some "Error: The retriever is not initialized." ∧
     ∀ q hist, Action.llmInvoke q hist ∉
       (main_on_query okLLM (process_documents ⟨false, 0⟩ cloudState [tinyDoc]).1 "And Y?").2.2) :=
  ⟨by decide, by decide, by decide, by decide, rfl, by decide, by decide,
   failed_build_still_sets_retriever_key ⟨false, 0⟩ cloudState [tinyDoc] okLLM "And Y?"
     (by decide) (by decide) (by decide) (by decide) rfl (by decide) (by decide)⟩

end RagPi
